import Mathlib

/-!
Shallow embedding of the PhishGuard URL risk-scoring engine
(src/backend/app.py, src/backend/feature_extractor.py, src/backend/train_models.py).

Modelling conventions:
* Python strings are `String` / `List Char`; the character classes used by the
  code (`isalpha`, `isdigit`, `islower`, `isupper`, `str.lower`, the regex
  classes `\d` and `\w`) are modelled on the ASCII range, which is the range
  exercised by every concrete input appearing below.
* Python floats are modelled as exact rationals (`ℚ`); a decimal literal such
  as `0.30` denotes the exact decimal value.
* Python 3 `round` is round-half-to-even; it is modelled by `pyRound`.
* The network probe `requests.get(url, timeout=3)` inside `extract_features`
  (app.py lines 31-36) is the one effectful operation of the pipeline.  It is
  modelled by an explicit oracle argument `probe : Option ℕ` standing for the
  outcome of the GET: `some n` means the request returned with
  `n = len(response.history)`, `none` means it raised and the bare `except`
  branch ran.  `App.extractAttemptsNetwork` records the effect trace (whether
  the GET is issued at all).
* `urllib.parse.urlparse` is modelled after CPython's `urlsplit`: control
  character sanitation, scheme/netloc/fragment/query splitting, the
  unbalanced-bracket `ValueError`, and the `hostname` property.  A raised
  `ValueError` becomes `Except.error`.  (The NFKC check for non-ASCII netlocs
  and the path-params split, neither of which any claim touches, are not
  modelled.)
-/

/-- ASCII uppercase letter, modelling Python `str.isupper` per character. -/
def pyIsUpper (c : Char) : Bool := 'A' ≤ c && c ≤ 'Z'

/-- ASCII lowercase letter, modelling Python `str.islower` per character. -/
def pyIsLower (c : Char) : Bool := 'a' ≤ c && c ≤ 'z'

/-- ASCII letter, modelling Python `str.isalpha` (ASCII range). -/
def pyIsAlpha (c : Char) : Bool := pyIsLower c || pyIsUpper c

/-- ASCII digit, modelling Python `str.isdigit` and the regex class `\d`. -/
def pyIsDigit (c : Char) : Bool := '0' ≤ c && c ≤ '9'

/-- Python `str.lower` (ASCII range). -/
def pyLower (cs : List Char) : List Char := cs.map Char.toLower

/-- Python substring membership `p in s` on character lists. -/
def hasSubstr (s p : List Char) : Bool :=
  match s with
  | [] => p.isEmpty
  | c :: t => p.isPrefixOf (c :: t) || hasSubstr t p

/-- Python `s.count(c)` for a single character. -/
def countChar (cs : List Char) (c : Char) : ℕ := cs.countP (fun d => d == c)

/-- Python whitespace stripped by `str.strip()` (common ASCII whitespace). -/
def pyIsSpace (c : Char) : Bool :=
  c = ' ' || c = '\t' || c = '\n' || c = '\r' || c = '\x0b' || c = '\x0c'

/-- Python `str.strip()` on a character list. -/
def pyStripList (cs : List Char) : List Char :=
  ((cs.dropWhile pyIsSpace).reverse.dropWhile pyIsSpace).reverse

/-- Python `str.strip()`. -/
def pyStrip (s : String) : String := String.mk (pyStripList s.data)

deriving instance DecidableEq for Except

/-- Python 3 `round` to an integer: round half to even (banker's rounding).
`Rat.floor` is used rather than `⌊·⌋` so that the kernel can evaluate it;
`rat_floor_eq_floor` below identifies the two. -/
def pyRound (q : ℚ) : ℤ :=
  if q - q.floor < 1/2 then q.floor
  else if 1/2 < q - q.floor then q.floor + 1
  else if q.floor % 2 = 0 then q.floor else q.floor + 1

/-- Python `round(q, 4)` on exact rationals: round(q * 10^4) / 10^4.  The
quotient is built with `Rat.divInt` (the same value as the field division,
see `Rat.divInt_eq_div`) so that the kernel can evaluate it. -/
def round4 (q : ℚ) : ℚ := Rat.divInt (pyRound (q * 10000)) 10000

namespace Url

/-- Result of `urllib.parse.urlparse` (the components the repository reads). -/
structure UrlParts where
  scheme : List Char
  netloc : List Char
  path : List Char
  query : List Char
  fragment : List Char
deriving DecidableEq

/-- CPython `scheme_chars`: letters, digits and `+`, `-`, `.`. -/
def isSchemeChar (c : Char) : Bool :=
  pyIsAlpha c || pyIsDigit c || c = '+' || c = '-' || c = '.'

/-- CPython urlsplit sanitation: lstrip C0 controls and space, then remove
tab, carriage return and newline everywhere. -/
def sanitize (cs : List Char) : List Char :=
  (cs.dropWhile (fun c => c.toNat ≤ 32)).filter
    (fun c => !(c = '\t' || c = '\r' || c = '\n'))

/-- CPython urlsplit scheme split: if a `:` occurs at position `i > 0`, the
first character is an ASCII letter and everything before the colon is a
scheme character, the (lowercased) prefix is the scheme. -/
def splitScheme (cs : List Char) : List Char × List Char :=
  let pre := cs.takeWhile (fun c => c ≠ ':')
  match pre with
  | [] => ([], cs)
  | c :: rest =>
    if pre.length < cs.length && pyIsAlpha c && rest.all isSchemeChar then
      (pyLower pre, cs.drop (pre.length + 1))
    else ([], cs)

/-- CPython `_splitnetloc`: the netloc runs until the first `/`, `?` or `#`. -/
def splitNetloc (cs : List Char) : List Char × List Char :=
  let n := cs.takeWhile (fun c => !(c = '/' || c = '?' || c = '#'))
  (n, cs.drop n.length)

/-- CPython `urlsplit` (hence `urlparse` for the components the repository
reads): raises `ValueError ("Invalid IPv6 URL")` when the netloc has an
unbalanced square bracket. -/
def urlsplit (url0 : List Char) : Except String UrlParts :=
  let url1 := sanitize url0
  let s := splitScheme url1
  let nr :=
    match s.2 with
    | '/' :: '/' :: tail => splitNetloc tail
    | _ => ([], s.2)
  let netloc := nr.1
  if (netloc.contains '[' && !(netloc.contains ']')) ||
     (netloc.contains ']' && !(netloc.contains '[')) then
    Except.error ("Invalid IPv6 URL")
  else
    let fr :=
      if nr.2.contains '#' then
        (nr.2.takeWhile (fun c => c ≠ '#'), (nr.2.dropWhile (fun c => c ≠ '#')).drop 1)
      else (nr.2, [])
    let qu :=
      if fr.1.contains '?' then
        (fr.1.takeWhile (fun c => c ≠ '?'), (fr.1.dropWhile (fun c => c ≠ '?')).drop 1)
      else (fr.1, [])
    Except.ok { scheme := s.1, netloc := netloc, path := qu.1, query := qu.2, fragment := fr.2 }

/-- CPython `ParseResult.hostname`: the part of the netloc after the last `@`,
then (without brackets) up to the first `:`, lowercased; app.py line 22
renders the `None` of an empty host as the empty string. -/
def hostname (netloc : List Char) : List Char :=
  let hostinfo := (netloc.reverse.takeWhile (fun c => c ≠ '@')).reverse
  let host :=
    if hostinfo.contains '[' then
      ((hostinfo.dropWhile (fun c => c ≠ '[')).drop 1).takeWhile (fun c => c ≠ ']')
    else
      hostinfo.takeWhile (fun c => c ≠ ':')
  pyLower host

/-- Wrapper: `urllib.parse.urlparse` on a string. -/
def urlparse (s : String) : Except String UrlParts := urlsplit s.data

end Url

namespace App

/-- app.py line 13. -/
def TRIGGER_WORDS : List (List Char) :=
  [("win").data, ("prize").data, ("gift").data, ("free").data,
   ("claim").data, ("bonus").data, ("offer").data]

/-- app.py line 15. -/
def SAFE_THRESHOLD : ℤ := 70

/-- The character class of app.py line 27, the regex
`[!@#$%^&*()_+=\[\]{};:<>,?/\\|]` (note: `.` and `-` are not in it). -/
def isSpecialChar (c : Char) : Bool :=
  ['!', '@', '#', '$', '%', '^', '&', '*', '(', ')', '_', '+', '=',
   '[', ']', '{', '}', ';', ':', '<', '>', ',', '?', '/', '\\', '|'].contains c

/-- app.py line 29: `sum(word in url.lower() for word in TRIGGER_WORDS)` --
each trigger word contributes 0 or 1, regardless of repetitions. -/
def trigger_count (cs : List Char) : ℕ :=
  (TRIGGER_WORDS.map (fun w => if hasSubstr (pyLower cs) w then 1 else 0)).sum

/-- app.py line 30: `int(any(c.islower() ...) and any(c.isupper() ...))`. -/
def token_mismatch (cs : List Char) : ℕ :=
  if cs.any pyIsLower && cs.any pyIsUpper then 1 else 0

/-- Matcher for app.py line 41, `re.match(r"\d+\.\d+\.\d+\.\d+", hostname)`:
one or more digits, then each of `.digits` three times, anchored at the
start (greedy `\d+` needs no backtracking since `.` is not a digit). -/
def chompDigits (cs : List Char) : Option (List Char) :=
  match cs with
  | c :: rest => if pyIsDigit c then some (rest.dropWhile pyIsDigit) else none
  | [] => none

/-- Consume a literal dot. -/
def chompDot (cs : List Char) : Option (List Char) :=
  match cs with
  | c :: rest => if c = '.' then some rest else none
  | [] => none

/-- Whether `re.match(r"\d+\.\d+\.\d+\.\d+", ...)` succeeds. -/
def matchesIpPrefix (cs : List Char) : Bool :=
  (((((((chompDigits cs).bind chompDot).bind chompDigits).bind chompDot).bind
      chompDigits).bind chompDot).bind chompDigits).isSome

/-- The labeled feature map of app.py lines 43-56.  The dict entries `url`
and `path` (raw copies used only by the UI insights) are not modelled. -/
structure Features where
  url_length : ℕ
  special_chars_count : ℕ
  special_char_ratio : ℚ
  trigger_count : ℕ
  token_mismatch : ℕ
  redirect_count : ℕ
  has_https : ℕ
  has_at : ℕ
  has_ip : ℕ
  hostname : List Char
deriving DecidableEq

/-- app.py lines 20-58, `extract_features(url)`.  `probe` is the outcome of
the `requests.get(url, timeout=3)` probe of lines 31-36 (`none` = request
raised, so `redirect_count = 0`); the raw URL string itself is never touched
by the probe.  A `ValueError` from `urlparse` (line 21) propagates. -/
def extract_features (url : String) (probe : Option ℕ) : Except String Features :=
  match Url.urlparse url with
  | Except.error e => Except.error e
  | Except.ok parsed =>
    let hostname := Url.hostname parsed.netloc
    let cs := url.data
    let url_length := cs.length
    let special_chars_count := cs.countP isSpecialChar
    let ratio : ℚ :=
      if 0 < url_length then (special_chars_count : ℚ) / (url_length : ℚ) else 0
    Except.ok
      { url_length := url_length
        special_chars_count := special_chars_count
        special_char_ratio := round4 ratio
        trigger_count := App.trigger_count cs
        token_mismatch := App.token_mismatch cs
        redirect_count := probe.getD 0
        has_https := if parsed.scheme = ("https").data then 1 else 0
        has_at := if cs.contains '@' then 1 else 0
        has_ip := if matchesIpPrefix hostname then 1 else 0
        hostname := hostname }

/-- Effect trace of `extract_features` (app.py lines 31-36): the statement
`requests.get(url, timeout=3)` is executed exactly when control reaches the
try block, i.e. whenever `urlparse(url)` on line 21 did not raise. -/
def extractAttemptsNetwork (url : String) : Bool := (Url.urlparse url).isOk

/-- app.py line 82. -/
def token_score (token_mismatch : ℕ) : ℚ := if token_mismatch = 1 then 0 else 1

/-- app.py line 85. -/
def trigger_score (trigger_count : ℕ) : ℚ := max 0 (1 - (trigger_count : ℚ) / 5)

/-- app.py line 88. -/
def redirect_score (redirect_count : ℕ) : ℚ := max 0 (1 - (redirect_count : ℚ) / 4)

/-- app.py lines 92-95. -/
def length_score (url_length : ℕ) : ℚ :=
  if url_length ≤ 50 then 1 else max 0 (1 - ((url_length : ℚ) - 50) / 170)

/-- app.py line 98. -/
def special_score (special_char_ratio : ℚ) : ℚ := max 0 (1 - special_char_ratio / 0.15)

/-- app.py weights dict, lines 101-107. -/
structure Weights where
  token : ℚ
  trigger : ℚ
  redirect : ℚ
  length : ℚ
  special : ℚ

/-- app.py lines 101-107 (the weights sum to 1). -/
def weights : Weights :=
  { token := 0.30, trigger := 0.20, redirect := 0.15, length := 0.20, special := 0.15 }

/-- app.py lines 63-118: the final 0-100 safety score
`int(round(weighted * 100))`.  (The per-feature UI percentages of lines
121-127 are not modelled.) -/
def compute_safety_score (feat : Features) : ℤ :=
  let weighted :=
    token_score feat.token_mismatch * weights.token +
    trigger_score feat.trigger_count * weights.trigger +
    redirect_score feat.redirect_count * weights.redirect +
    length_score feat.url_length * weights.length +
    special_score feat.special_char_ratio * weights.special
  pyRound (weighted * 100)

/-- The two response shapes of the `/scan` endpoint (app.py lines 145-186):
an error JSON with an HTTP status code, or a success JSON.  The human
readable `features` list and `feature_scores` dict (UI payload) are not
modelled. -/
inductive ScanResponse where
  | httpError (message : String) (code : ℕ)
  | success (prediction : String) (trust : ℤ)
deriving DecidableEq

/-- Whether a response is the success shape. -/
def isSuccess : ScanResponse → Bool
  | ScanResponse.success _ _ => true
  | _ => false

/-- app.py lines 145-186, `scan_url`: strip the posted url; empty means a 400
error; any exception out of extraction/scoring becomes a 500 error; otherwise
the verdict is `"Safe URL"` iff `score > SAFE_THRESHOLD`. -/
def scan_url (body : String) (probe : Option ℕ) : ScanResponse :=
  let url := pyStrip body
  if url = ("") then ScanResponse.httpError ("No URL provided") 400
  else
    match extract_features url probe with
    | Except.error e => ScanResponse.httpError e 500
    | Except.ok feat =>
      let score := compute_safety_score feat
      ScanResponse.success
        (if score > SAFE_THRESHOLD then ("Safe URL") else ("Phishing URL")) score

end App

namespace FeatureExtractor

/-- feature_extractor.py line 5. -/
def SUSPICIOUS_TLDS : List (List Char) :=
  [("xyz").data, ("top").data, ("club").data, ("monster").data,
   ("work").data, ("gq").data, ("ml").data, ("tk").data]

/-- feature_extractor.py lines 8-11. -/
def PHISHING_KEYWORDS : List (List Char) :=
  [("secure").data, ("account").data, ("verify").data, ("update").data,
   ("login").data, ("signin").data, ("bank").data, ("paypal").data,
   ("auth").data, ("confirm").data]

/-- feature_extractor.py lines 13-47, `extract_features(url)`: the ordered
15-feature numeric vector.  `hostname` is the lowercased netloc (line 15);
the tld is what follows the last dot of it (line 18); `has_https` is
`url.startswith("https")` (line 31); `special_char_count` counts the regex
class `[^\w]` (line 34).  A `ValueError` from `urlparse` propagates. -/
def extract_features (url : String) : Except String (List ℕ) :=
  match Url.urlparse url with
  | Except.error e => Except.error e
  | Except.ok parsed =>
    let cs := url.data
    let hostname := pyLower parsed.netloc
    let tld :=
      if hostname.contains '.' then (hostname.reverse.takeWhile (fun c => c ≠ '.')).reverse
      else []
    Except.ok
      [cs.length,
       hostname.length,
       countChar cs '.',
       countChar cs '-',
       countChar cs '@',
       countChar cs '?',
       countChar cs '%',
       countChar cs '/',
       countChar cs '=',
       if ("https").data.isPrefixOf cs then 1 else 0,
       cs.countP pyIsDigit,
       cs.countP pyIsAlpha,
       cs.countP (fun c => !(pyIsAlpha c || pyIsDigit c || c = '_')),
       if PHISHING_KEYWORDS.any (fun w => hasSubstr (pyLower cs) w) then 1 else 0,
       if SUSPICIOUS_TLDS.contains tld then 1 else 0]

end FeatureExtractor

namespace TrainModels

/-- train_models.py line 41. -/
def KEYWORDS : List (List Char) :=
  [("login").data, ("secure").data, ("verify").data, ("update").data,
   ("bank").data, ("confirm").data]

/-- train_models.py lines 22-45, `extract_features(url)`: the ordered
14-feature numeric vector the scaler and the classifiers are fit on
(lines 66, 77-79 and 88-111).  Unlike feature_extractor.py it has no
`suspicious_tld` entry, does not lowercase the netloc, and matches its
keywords case-sensitively in the raw url. -/
def extract_features (url : String) : Except String (List ℕ) :=
  match Url.urlparse url with
  | Except.error e => Except.error e
  | Except.ok parsed =>
    let cs := url.data
    let hostname := parsed.netloc
    Except.ok
      [cs.length,
       hostname.length,
       countChar cs '.',
       countChar cs '-',
       countChar cs '@',
       countChar cs '?',
       countChar cs '%',
       countChar cs '/',
       countChar cs '=',
       if ("https").data.isPrefixOf cs then 1 else 0,
       cs.countP pyIsDigit,
       cs.countP pyIsAlpha,
       cs.countP (fun c => !(pyIsAlpha c || pyIsDigit c || c = '_')),
       if KEYWORDS.any (fun w => hasSubstr cs w) then 1 else 0]

end TrainModels

/-
Batteries marks `Rat.add`, `Rat.sub`, `Rat.mul`, `Rat.inv` and
`Rat.ofScientific` as irreducible, which blocks tactic-level evaluation of
concrete rational arithmetic; making them locally semireducible lets
`decide` and `rfl` evaluate the embedded pipeline on concrete URLs.  The
kernel ignores reducibility attributes, so checked proofs are unaffected.
-/
attribute [local semireducible] Rat.add Rat.sub Rat.mul Rat.inv Rat.ofScientific

example : pyRound (5000/3 : ℚ) = 1667 := by decide

example : Url.urlparse ("http://example.com") =
    Except.ok { scheme := ("http").data, netloc := ("example.com").data,
                path := [], query := [], fragment := [] } := by decide

example : App.scan_url ("hello") none = App.ScanResponse.success ("Safe URL") 100 := by decide

example : App.scan_url ("Hello") none = App.ScanResponse.success ("Phishing URL") 70 := by decide

example : App.extract_features ("http://[") none = Except.error ("Invalid IPv6 URL") := by decide

/-- Identification of `Rat.floor` with the `FloorRing` floor on `ℚ`. -/
theorem rat_floor_eq_floor (q : ℚ) : q.floor = ⌊q⌋ := by
  rw [Rat.floor_def', ← Rat.floor_def]

/-- Values of `pyRound`: the floor or the floor plus one. -/
theorem pyRound_eq_floor_or_succ (q : ℚ) : pyRound q = ⌊q⌋ ∨ pyRound q = ⌊q⌋ + 1 := by
  unfold pyRound
  simp only [rat_floor_eq_floor]
  split_ifs <;> simp

/-- Nonnegativity of `pyRound` on nonnegative rationals. -/
theorem pyRound_nonneg (q : ℚ) (h : 0 ≤ q) : 0 ≤ pyRound q := by
  have hf : 0 ≤ ⌊q⌋ := Int.floor_nonneg.mpr h
  rcases pyRound_eq_floor_or_succ q with e | e <;> omega

/-- Upper bound: `pyRound` never overshoots an integer upper bound. -/
theorem pyRound_le_of_le (q : ℚ) (n : ℤ) (h : q ≤ (n : ℚ)) : pyRound q ≤ n := by
  have hf : ⌊q⌋ ≤ n := by
    have := Int.floor_le_floor h
    simpa using this
  have hfl : (⌊q⌋ : ℚ) ≤ q := Int.floor_le q
  unfold pyRound
  simp only [rat_floor_eq_floor]
  split_ifs with h1 h2 h3
  · exact hf
  · have hlt : (⌊q⌋ : ℚ) < (n : ℚ) := by linarith
    have : ⌊q⌋ < n := by exact_mod_cast hlt
    omega
  · exact hf
  · push_neg at h1
    have hlt : (⌊q⌋ : ℚ) < (n : ℚ) := by linarith
    have : ⌊q⌋ < n := by exact_mod_cast hlt
    omega

/-- The token sub-score lies in the unit interval. -/
theorem token_score_mem (tm : ℕ) : 0 ≤ App.token_score tm ∧ App.token_score tm ≤ 1 := by
  unfold App.token_score
  split_ifs <;> norm_num

/-- The trigger sub-score lies in the unit interval. -/
theorem trigger_score_mem (tc : ℕ) : 0 ≤ App.trigger_score tc ∧ App.trigger_score tc ≤ 1 := by
  unfold App.trigger_score
  refine ⟨le_max_left 0 _, max_le (by norm_num) ?_⟩
  have h : (0:ℚ) ≤ (tc : ℚ) := Nat.cast_nonneg tc
  linarith

/-- The redirect sub-score lies in the unit interval. -/
theorem redirect_score_mem (rc : ℕ) : 0 ≤ App.redirect_score rc ∧ App.redirect_score rc ≤ 1 := by
  unfold App.redirect_score
  refine ⟨le_max_left 0 _, max_le (by norm_num) ?_⟩
  have h : (0:ℚ) ≤ (rc : ℚ) := Nat.cast_nonneg rc
  linarith

/-- The length sub-score lies in the unit interval. -/
theorem length_score_mem (l : ℕ) : 0 ≤ App.length_score l ∧ App.length_score l ≤ 1 := by
  unfold App.length_score
  split_ifs with h
  · norm_num
  · refine ⟨le_max_left 0 _, max_le (by norm_num) ?_⟩
    have h50 : (50:ℚ) ≤ (l : ℚ) := by
      have := Nat.lt_of_not_le h
      exact_mod_cast Nat.le_of_lt this
    linarith

/-- The special-character sub-score lies in the unit interval when the ratio
is nonnegative. -/
theorem special_score_mem (r : ℚ) (h : 0 ≤ r) :
    0 ≤ App.special_score r ∧ App.special_score r ≤ 1 := by
  unfold App.special_score
  refine ⟨le_max_left 0 _, max_le (by norm_num) ?_⟩
  have hd : 0 ≤ r / 0.15 := div_nonneg h (by norm_num)
  linarith

/-- The trigger sub-score never increases when the trigger count grows. -/
theorem trigger_score_anti (a b : ℕ) (h : a ≤ b) :
    App.trigger_score b ≤ App.trigger_score a := by
  unfold App.trigger_score
  apply max_le_max (le_refl 0)
  have hc : (a:ℚ) ≤ (b:ℚ) := by exact_mod_cast h
  linarith

/-- The redirect sub-score never increases when the redirect count grows. -/
theorem redirect_score_anti (a b : ℕ) (h : a ≤ b) :
    App.redirect_score b ≤ App.redirect_score a := by
  unfold App.redirect_score
  apply max_le_max (le_refl 0)
  have hc : (a:ℚ) ≤ (b:ℚ) := by exact_mod_cast h
  linarith

/-- The length sub-score never increases when the URL length grows. -/
theorem length_score_anti (a b : ℕ) (h : a ≤ b) :
    App.length_score b ≤ App.length_score a := by
  unfold App.length_score
  split_ifs with hb ha ha
  · exact le_refl 1
  · exact absurd (Nat.le_trans h hb) ha
  · exact max_le (by norm_num) (by
      have h50 : (50:ℚ) ≤ (b:ℚ) := by
        have := Nat.lt_of_not_le hb
        exact_mod_cast Nat.le_of_lt this
      linarith)
  · apply max_le_max (le_refl 0)
    have hc : (a:ℚ) ≤ (b:ℚ) := by exact_mod_cast h
    linarith

/-- The special-character sub-score never increases when the ratio grows. -/
theorem special_score_anti (a b : ℚ) (h : a ≤ b) :
    App.special_score b ≤ App.special_score a := by
  unfold App.special_score
  apply max_le_max (le_refl 0)
  have hd : a / 0.15 ≤ b / 0.15 := by
    rw [div_le_div_iff_of_pos_right (by norm_num)]
    exact h
  linarith

/-- C1: for every input feature map (counts are naturals, the special-char
ratio a nonnegative rational), the heuristic trust score is an integer in
[0, 100] and equals round(100 * sum of weight_i * subscore_i) over the
configured weights. -/
theorem c1_trust_in_range_eq_round_formula (f : App.Features)
    (h : 0 ≤ f.special_char_ratio) :
    (0 ≤ App.compute_safety_score f ∧ App.compute_safety_score f ≤ 100)
    ∧ App.compute_safety_score f =
      pyRound (100 * (App.weights.token * App.token_score f.token_mismatch
        + App.weights.trigger * App.trigger_score f.trigger_count
        + App.weights.redirect * App.redirect_score f.redirect_count
        + App.weights.length * App.length_score f.url_length
        + App.weights.special * App.special_score f.special_char_ratio)) := by
  obtain ⟨t0, t1⟩ := token_score_mem f.token_mismatch
  obtain ⟨g0, g1⟩ := trigger_score_mem f.trigger_count
  obtain ⟨r0, r1⟩ := redirect_score_mem f.redirect_count
  obtain ⟨l0, l1⟩ := length_score_mem f.url_length
  obtain ⟨s0, s1⟩ := special_score_mem f.special_char_ratio h
  have wt : App.weights.token = 0.30 := rfl
  have wg : App.weights.trigger = 0.20 := rfl
  have wr : App.weights.redirect = 0.15 := rfl
  have wl : App.weights.length = 0.20 := rfl
  have ws : App.weights.special = 0.15 := rfl
  refine ⟨⟨?_, ?_⟩, ?_⟩
  · simp only [App.compute_safety_score]
    apply pyRound_nonneg
    rw [wt, wg, wr, wl, ws]
    nlinarith
  · simp only [App.compute_safety_score]
    apply pyRound_le_of_le
    push_cast
    rw [wt, wg, wr, wl, ws]
    nlinarith
  · simp only [App.compute_safety_score]
    exact congrArg pyRound (by ring)

/-- Witness for C1 at the all-zero feature map (trust 100). -/
theorem c1_trust_in_range_eq_round_formula_witness :
    (0 ≤ App.compute_safety_score
        { url_length := 0, special_chars_count := 0, special_char_ratio := 0,
          trigger_count := 0, token_mismatch := 0, redirect_count := 0,
          has_https := 0, has_at := 0, has_ip := 0, hostname := [] }
      ∧ App.compute_safety_score
        { url_length := 0, special_chars_count := 0, special_char_ratio := 0,
          trigger_count := 0, token_mismatch := 0, redirect_count := 0,
          has_https := 0, has_at := 0, has_ip := 0, hostname := [] } ≤ 100)
    ∧ App.compute_safety_score
        { url_length := 0, special_chars_count := 0, special_char_ratio := 0,
          trigger_count := 0, token_mismatch := 0, redirect_count := 0,
          has_https := 0, has_at := 0, has_ip := 0, hostname := [] } =
      pyRound (100 * (App.weights.token * App.token_score 0
        + App.weights.trigger * App.trigger_score 0
        + App.weights.redirect * App.redirect_score 0
        + App.weights.length * App.length_score 0
        + App.weights.special * App.special_score 0)) :=
  c1_trust_in_range_eq_round_formula
    { url_length := 0, special_chars_count := 0, special_char_ratio := 0,
      trigger_count := 0, token_mismatch := 0, redirect_count := 0,
      has_https := 0, has_at := 0, has_ip := 0, hostname := [] } (by norm_num)

/-- C6: every sub-score (token, trigger, redirect, length, special) lies in
[0, 1] (the special score under a nonnegative ratio), and the trigger,
redirect, length and special sub-scores are monotonically non-increasing in
their badness signal. -/
theorem c6_subscores_unit_and_antitone :
    (∀ tm : ℕ, 0 ≤ App.token_score tm ∧ App.token_score tm ≤ 1)
    ∧ (∀ tc : ℕ, 0 ≤ App.trigger_score tc ∧ App.trigger_score tc ≤ 1)
    ∧ (∀ rc : ℕ, 0 ≤ App.redirect_score rc ∧ App.redirect_score rc ≤ 1)
    ∧ (∀ l : ℕ, 0 ≤ App.length_score l ∧ App.length_score l ≤ 1)
    ∧ (∀ r : ℚ, 0 ≤ r → 0 ≤ App.special_score r ∧ App.special_score r ≤ 1)
    ∧ (∀ a b : ℕ, a ≤ b → App.trigger_score b ≤ App.trigger_score a)
    ∧ (∀ a b : ℕ, a ≤ b → App.redirect_score b ≤ App.redirect_score a)
    ∧ (∀ a b : ℕ, a ≤ b → App.length_score b ≤ App.length_score a)
    ∧ (∀ a b : ℚ, a ≤ b → App.special_score b ≤ App.special_score a) :=
  ⟨token_score_mem, trigger_score_mem, redirect_score_mem, length_score_mem,
   special_score_mem, trigger_score_anti, redirect_score_anti,
   length_score_anti, special_score_anti⟩

/-- Witness for C6 at concrete inputs. -/
theorem c6_subscores_unit_and_antitone_witness :
    (0 ≤ App.special_score 0 ∧ App.special_score 0 ≤ 1)
    ∧ App.trigger_score 3 ≤ App.trigger_score 2
    ∧ App.redirect_score 5 ≤ App.redirect_score 1
    ∧ App.length_score 60 ≤ App.length_score 51
    ∧ App.special_score (1/10) ≤ App.special_score (1/20) :=
  ⟨c6_subscores_unit_and_antitone.2.2.2.2.1 0 (le_refl 0),
   c6_subscores_unit_and_antitone.2.2.2.2.2.1 2 3 (by norm_num),
   c6_subscores_unit_and_antitone.2.2.2.2.2.2.1 1 5 (by norm_num),
   c6_subscores_unit_and_antitone.2.2.2.2.2.2.2.1 51 60 (by norm_num),
   c6_subscores_unit_and_antitone.2.2.2.2.2.2.2.2 (1/20) (1/10) (by norm_num)⟩

/-- A sum of 0/1 indicators over a list is the length of the filtered list. -/
theorem sum_map_ite_eq_length_filter (l : List (List Char)) (p : List Char → Bool) :
    (l.map (fun w => if p w then (1:ℕ) else 0)).sum = (l.filter p).length := by
  induction l with
  | nil => rfl
  | cons a t ih =>
    by_cases h : p a
    · simp [List.filter_cons, h, ih, Nat.add_comm]
    · simp [List.filter_cons, h, ih]

/-- C10: `trigger_count` counts each configured trigger word at most once
(it equals the number of distinct configured words occurring in the lowercased
URL), is bounded by the size of the configured list (7), and the trigger
sub-score reaches 0 exactly when at least 5 distinct configured words occur. -/
theorem c10_trigger_count_distinct_and_saturation :
    (∀ u : String, App.trigger_count u.data ≤ 7)
    ∧ (∀ u : String, App.trigger_count u.data
        = (App.TRIGGER_WORDS.filter (fun w => hasSubstr (pyLower u.data) w)).length)
    ∧ (∀ u : String,
        App.trigger_score (App.trigger_count u.data) = 0 ↔ 5 ≤ App.trigger_count u.data) := by
  have key : ∀ u : String, App.trigger_count u.data
      = (App.TRIGGER_WORDS.filter (fun w => hasSubstr (pyLower u.data) w)).length := by
    intro u
    unfold App.trigger_count
    exact sum_map_ite_eq_length_filter App.TRIGGER_WORDS (fun w => hasSubstr (pyLower u.data) w)
  refine ⟨fun u => ?_, key, fun u => ?_⟩
  · rw [key u]
    have hle := List.length_filter_le (fun w => hasSubstr (pyLower u.data) w) App.TRIGGER_WORDS
    exact le_trans hle (by rfl)
  · unfold App.trigger_score
    rw [max_eq_left_iff]
    constructor
    · intro hle
      have h5 : (5:ℚ) ≤ (App.trigger_count u.data : ℚ) := by linarith
      exact_mod_cast h5
    · intro hge
      have h5 : (5:ℚ) ≤ (App.trigger_count u.data : ℚ) := by exact_mod_cast hge
      linarith

/-- C2 (code_bug evidence): both classifier-input extractors return vectors
of constant length whenever they return at all, but the lengths differ:
feature_extractor.py yields 15 entries while train_models.py fits the scaler
and the classifiers on 14-entry vectors. -/
theorem c2_vector_length_skew :
    (∀ u : String,
      (FeatureExtractor.extract_features u).map List.length
        = (Url.urlparse u).map (fun _ => 15))
    ∧ (∀ u : String,
      (TrainModels.extract_features u).map List.length
        = (Url.urlparse u).map (fun _ => 14))
    ∧ (FeatureExtractor.extract_features ("")).map List.length = Except.ok 15
    ∧ (TrainModels.extract_features ("")).map List.length = Except.ok 14 := by
  refine ⟨fun u => ?_, fun u => ?_, by rfl, by rfl⟩
  · unfold FeatureExtractor.extract_features
    cases hu : Url.urlparse u <;> rfl
  · unfold TrainModels.extract_features
    cases hu : Url.urlparse u <;> rfl

/-- C3 (counterexample): a URL lacking both a scheme and a netloc is not
rejected as InvalidURL with trust 0 -- it is scored (here: Safe URL, trust
100) -- and the empty string yields a 400 error response, not a verdict. -/
theorem c3_no_invalid_url_counterexample :
    App.scan_url ("hello") none = App.ScanResponse.success ("Safe URL") 100
    ∧ App.scan_url ("") none = App.ScanResponse.httpError ("No URL provided") 400 := by
  constructor
  · decide
  · decide

/-- C3 (amended): an empty or whitespace-only URL short-circuits into the
400 error response before any feature extraction, while a URL lacking both
scheme and netloc proceeds to scoring and produces a success verdict. -/
theorem c3_empty_is_error_schemeless_is_scored :
    (∀ probe : Option ℕ,
      App.scan_url ("") probe = App.ScanResponse.httpError ("No URL provided") 400)
    ∧ (∀ probe : Option ℕ,
      App.scan_url ("   ") probe = App.ScanResponse.httpError ("No URL provided") 400)
    ∧ (∀ probe : Option ℕ, App.isSuccess (App.scan_url ("hello") probe) = true) := by
  refine ⟨fun probe => by rfl, fun probe => by rfl, fun probe => ?_⟩
  cases probe <;> rfl

/-- C4 (counterexample): the app.py extractor does perform network I/O --
for any URL that `urlparse` accepts, control reaches
`requests.get(url, timeout=3)`. -/
theorem c4_network_get_is_executed :
    App.extractAttemptsNetwork ("http://example.com") = true := by rfl

/-- C4 (amended): the observed redirect count stored in the feature map is
exactly the probe outcome with default 0 on failure, and the scan pipeline
is deterministic in the URL and the observed redirect count. -/
theorem c4_redirect_oracle_and_determinism :
    (∀ (u : String) (p : Option ℕ),
      (App.extract_features u p).map App.Features.redirect_count
        = (Url.urlparse u).map (fun _ => p.getD 0))
    ∧ (∀ (u : String) (p q : Option ℕ), p.getD 0 = q.getD 0 →
        App.scan_url u p = App.scan_url u q) := by
  constructor
  · intro u p
    unfold App.extract_features
    cases hu : Url.urlparse u <;> rfl
  · intro u p q h
    have he : ∀ v : String, App.extract_features v p = App.extract_features v q := by
      intro v
      unfold App.extract_features
      rw [h]
    simp only [App.scan_url, he]

/-- Witness for C4 (amended): a successful probe with 0 redirects and a
failed probe scan identically. -/
theorem c4_redirect_oracle_and_determinism_witness :
    App.scan_url ("http://example.com") (some 0) = App.scan_url ("http://example.com") none :=
  c4_redirect_oracle_and_determinism.2 ("http://example.com") (some 0) none (by rfl)

/-- C5 (counterexample): both extractors raise (ValueError from urlparse)
on a URL whose netloc has an unbalanced square bracket. -/
theorem c5_extractor_raises_counterexample :
    App.extract_features ("http://[") none = Except.error ("Invalid IPv6 URL")
    ∧ FeatureExtractor.extract_features ("http://[") = Except.error ("Invalid IPv6 URL") := by
  constructor
  · rfl
  · rfl

/-- C5 (amended): the app.py extractor returns normally exactly when
`urlparse` does; malformed components degrade to empty/zero values -- a URL
with no host gives an empty hostname and `has_ip = 0`, and the empty string
gives length 0, ratio 0 and an empty hostname. -/
theorem c5_total_iff_urlparse_ok :
    (∀ (u : String) (p : Option ℕ),
      (App.extract_features u p).isOk = (Url.urlparse u).isOk)
    ∧ (∀ p : Option ℕ,
      (App.extract_features ("hello") p).map (fun f => (f.hostname, f.has_ip))
        = Except.ok ([], 0))
    ∧ (∀ p : Option ℕ,
      (App.extract_features ("") p).map
          (fun f => (f.url_length, f.special_char_ratio, f.hostname))
        = Except.ok (0, 0, [])) := by
  refine ⟨fun u p => ?_, fun p => ?_, fun p => ?_⟩
  · unfold App.extract_features
    cases hu : Url.urlparse u <;> rfl
  · cases p <;> rfl
  · cases p <;> rfl

/-- C7: a success response carries the verdict `"Safe URL"` exactly when the
trust score strictly exceeds `SAFE_THRESHOLD`, and a trust score equal to the
threshold yields `"Phishing URL"`. -/
theorem c7_safe_iff_above_threshold (body : String) (probe : Option ℕ)
    (pred : String) (trust : ℤ)
    (h : App.scan_url body probe = App.ScanResponse.success pred trust) :
    (pred = ("Safe URL") ↔ trust > App.SAFE_THRESHOLD)
    ∧ (trust = App.SAFE_THRESHOLD → pred = ("Phishing URL")) := by
  simp only [App.scan_url] at h
  split at h
  · simp at h
  · split at h
    · simp at h
    · rw [App.ScanResponse.success.injEq] at h
      obtain ⟨hp, ht⟩ := h
      subst ht
      subst hp
      split_ifs with hs
      · refine ⟨by simp [hs], fun h70 => absurd hs (by rw [h70]; exact lt_irrefl _)⟩
      · refine ⟨⟨fun he => absurd he (by decide), fun hgt => absurd hgt hs⟩, fun h70 => rfl⟩

/-- Witness for C7 at the mixed-case URL with trust exactly 70. -/
theorem c7_safe_iff_above_threshold_witness :
    ((("Phishing URL") : String) = ("Safe URL") ↔ (70:ℤ) > App.SAFE_THRESHOLD)
    ∧ ((70:ℤ) = App.SAFE_THRESHOLD → (("Phishing URL") : String) = ("Phishing URL")) :=
  c7_safe_iff_above_threshold ("Hello") none ("Phishing URL") 70
    (by decide)

/-- C8 (counterexample): `extract_features("http://example.com")` sees a URL
of length 18 (not 19) with 3 special characters -- `:`, `/`, `/`; the dot is
not in the special-character class -- (not 2), so the stored ratio is
round(3/18, 4) = 0.1667 rather than 2/19. -/
theorem c8_example_com_counterexample :
    (App.extract_features ("http://example.com") none).map
        (fun f => (f.url_length, f.special_chars_count, f.special_char_ratio))
      = Except.ok (18, 3, 1667/10000)
    ∧ ((18, 3, (1667/10000 : ℚ)) ≠ ((19, 2, 2/19) : ℕ × ℕ × ℚ)) := by
  constructor
  · decide
  · decide

/-- C8 (amended): the full feature map of `"http://example.com"`: the binary
flags and counts are as the claim states (https 0, at 0, ip 0, triggers 0,
token mismatch 0), but with 3 special characters over length 18, stored as
the rounded ratio 0.1667. -/
theorem c8_example_com_features :
    App.extract_features ("http://example.com") none = Except.ok
      { url_length := 18, special_chars_count := 3, special_char_ratio := 1667/10000,
        trigger_count := 0, token_mismatch := 0, redirect_count := 0,
        has_https := 0, has_at := 0, has_ip := 0,
        hostname := ("example.com").data } := by
  decide

/-- C9 (counterexample): the classifier-input extractor marks
`"https.evil.com"` as `has_https = 1` (vector index 9) although the parsed
scheme of that URL is empty, not `"https"`. -/
theorem c9_startswith_counterexample :
    (FeatureExtractor.extract_features ("https.evil.com")).map (fun v => v.get? 9)
      = Except.ok (some 1)
    ∧ (Url.urlparse ("https.evil.com")).map Url.UrlParts.scheme = Except.ok []
    ∧ (([] : List Char) ≠ ("https").data) := by
  refine ⟨?_, ?_, ?_⟩
  · rfl
  · rfl
  · decide

/-- C9 (amended): the heuristic-path extractor derives `has_https` from the
parsed scheme (`1` iff the scheme is `"https"`), while the classifier-input
extractor sets it to `1` iff the raw URL string starts with `"https"`. -/
theorem c9_has_https_derivations :
    (∀ (u : String) (p : Option ℕ),
      (App.extract_features u p).map App.Features.has_https
        = (Url.urlparse u).map
            (fun parsed => if parsed.scheme = ("https").data then 1 else 0))
    ∧ (∀ u : String,
      (FeatureExtractor.extract_features u).map (fun v => v.get? 9)
        = (Url.urlparse u).map
            (fun _ => some (if ("https").data.isPrefixOf u.data then 1 else 0))) := by
  constructor
  · intro u p
    unfold App.extract_features
    cases hu : Url.urlparse u <;> rfl
  · intro u
    unfold FeatureExtractor.extract_features
    cases hu : Url.urlparse u <;> rfl
